import Mathlib

/-!
Shallow embedding of the subscription lifecycle reconciler of the
vale-o-vinho backend, and proofs about the claims of its specification.

The embedding follows the source files:
- `server/routers/subscription.ts` (webhook handlers and command surface),
- `server/middleware/subscription.ts` (entitlement query),
- the SQL migration creating the `subscriptions`, `payment_history` and
  `subscription_plans` tables (MySQL).

Conventions of the embedding:
- Timestamps are `Int` (Unix seconds); `FROM_UNIXTIME` is the identity.
- Nullable SQL columns and optional JS fields are `Option`.
- JavaScript truthiness on nullable strings (`!x`) is `jsTruthy`:
  `null`/`undefined` and the empty string are falsy.
- A SQL `WHERE col = ?` comparison is `sqlStrEq`: a `NULL` on either side
  matches nothing.
- `db.query` can throw; each handler takes a `dbFail : Bool` that is true
  when the persistence step throws a storage error, and the `try/catch`
  of the source decides what happens then.
- External provider calls (Stripe API) are collaborators outside the
  reconciler; where a handler reads data retrieved from the provider the
  retrieved object is an input, and where the command surface performs a
  provider-side write that write is modelled as succeeding.
- Decimal amounts (`DECIMAL(10,2)`) are `Rat`.
-/

namespace ValeOVinho

/-- The `status` enum of the `subscriptions` table:
`ENUM('active', 'canceled', 'past_due', 'trialing', 'incomplete')`. -/
inductive SubStatus
  | active
  | canceled
  | past_due
  | trialing
  | incomplete
deriving Repr, DecidableEq

/-- The string stored for a `SubStatus` value. -/
def SubStatus.str : SubStatus → String
  | .active => "active"
  | .canceled => "canceled"
  | .past_due => "past_due"
  | .trialing => "trialing"
  | .incomplete => "incomplete"

/-- The `status` enum of the `payment_history` table. -/
inductive PayStatus
  | succeeded
  | pending
  | failed
deriving Repr, DecidableEq

/-- One row of the `subscriptions` table (SQL migration). -/
structure SubscriptionRow where
  id : Nat
  user_id : String
  plan_id : Nat
  stripe_customer_id : Option String
  stripe_subscription_id : Option String
  status : SubStatus
  current_period_start : Option Int
  current_period_end : Option Int
  cancel_at_period_end : Bool
  trial_end : Option Int
  created_at : Int
  updated_at : Int
deriving Repr, DecidableEq

/-- One row of the `payment_history` table (SQL migration). -/
structure PaymentRow where
  id : Nat
  subscription_id : Nat
  stripe_payment_intent_id : Option String
  amount : Rat
  currency : String
  status : PayStatus
  payment_method : String
  paid_at : Int
  created_at : Int
deriving Repr, DecidableEq

/-- One row of the `subscription_plans` table (SQL migration). -/
structure Plan where
  id : Nat
  name : String
  description : Option String
  price_monthly : Rat
  price_yearly : Option Rat
deriving Repr, DecidableEq

/-- The database state the reconciler reads and writes: the three tables,
plus the `AUTO_INCREMENT` counters of `subscriptions` and
`payment_history`. Lists keep insertion order. -/
structure Store where
  subscriptions : List SubscriptionRow
  payment_history : List PaymentRow
  plans : List Plan
  next_sub_id : Nat
  next_pay_id : Nat
deriving Repr, DecidableEq

/-- SQL equality on nullable string columns: `NULL` never matches. -/
def sqlStrEq (a b : Option String) : Bool :=
  match a, b with
  | some x, some y => x == y
  | _, _ => false

/-- JavaScript truthiness of a nullable string: `null`, `undefined` and
`""` are falsy, every other string truthy. -/
def jsTruthy : Option String → Bool
  | none => false
  | some s => !(s == "")

/-- `subscription.trial_end ? new Date(subscription.trial_end * 1000) : null`:
`null` and `0` give `null`. -/
def jsNonzeroTime : Option Int → Option Int
  | none => none
  | some t => if t == 0 then none else some t

/-- `invoice.status_transitions?.paid_at || Math.floor(Date.now() / 1000)`:
`null`, `undefined` and `0` fall back to the current time. -/
def jsPaidAt (t : Option Int) (now : Int) : Int :=
  match t with
  | none => now
  | some v => if v == 0 then now else v

/-- `invoice.currency?.toUpperCase() || 'BRL'`. -/
def jsCurrency : Option String → String
  | none => "BRL"
  | some c => if c.toUpper == "" then "BRL" else c.toUpper

/-- `invoice.payment_method_types?.[0] || 'card'`. -/
def jsPaymentMethod : List String → String
  | [] => "card"
  | m :: _ => if m == "" then "card" else m

/-- `(invoice.amount_paid || 0) / 100` stored into `DECIMAL(10,2)`. -/
def jsAmount (a : Option Int) : Rat := ((a.getD 0 : Int) : Rat) / 100

/-- The fields of a `Stripe.Checkout.Session` read by
`handleCheckoutCompleted`. -/
structure CheckoutSession where
  metadata_userId : Option String
  subscription : Option String
  customer : Option String
deriving Repr, DecidableEq

/-- The fields of a `Stripe.Subscription` object read by the handlers
(either retrieved via the provider API or carried by an event). -/
structure StripeSub where
  id : String
  status : SubStatus
  current_period_start : Int
  current_period_end : Int
  trial_end : Option Int
  cancel_at_period_end : Bool
deriving Repr, DecidableEq

/-- The fields of a `Stripe.Invoice` object read by the handlers. -/
structure Invoice where
  id : String
  subscription : Option String
  payment_intent : Option String
  amount_paid : Option Int
  currency : Option String
  payment_method_types : List String
  status_transitions_paid_at : Option Int
deriving Repr, DecidableEq

/-- `handleCheckoutCompleted` (`subscription.ts`): if the session lacks a
`userId` or a subscription id, log and return; otherwise `INSERT` a new
`subscriptions` row (the table has no uniqueness constraint on
`stripe_subscription_id`, so the insert always appends). A storage error
is caught and logged, leaving the store unchanged. -/
def handleCheckoutCompleted (dbFail : Bool) (session : CheckoutSession)
    (retrieved : StripeSub) (now : Int) (store : Store) : Store :=
  if !(jsTruthy session.metadata_userId) || !(jsTruthy session.subscription) then
    store
  else if dbFail then
    store
  else
    { store with
      subscriptions := store.subscriptions ++
        [{ id := store.next_sub_id
           user_id := session.metadata_userId.getD ""
           plan_id := 1
           stripe_customer_id := session.customer
           stripe_subscription_id := session.subscription
           status := retrieved.status
           current_period_start := some retrieved.current_period_start
           current_period_end := some retrieved.current_period_end
           cancel_at_period_end := false
           trial_end := jsNonzeroTime retrieved.trial_end
           created_at := now
           updated_at := now }]
      next_sub_id := store.next_sub_id + 1 }

/-- The row transformation of `handleSubscriptionUpdated`'s SQL `UPDATE`:
every row whose `stripe_subscription_id` matches is overwritten with the
event's `status`, period bounds and `cancel_at_period_end`, and its
`updated_at` refreshed; the `UPDATE` has no condition on the row's current
status. -/
def applySubUpdate (evt : StripeSub) (now : Int) (r : SubscriptionRow) :
    SubscriptionRow :=
  if sqlStrEq r.stripe_subscription_id (some evt.id) then
    { r with
      status := evt.status
      current_period_start := some evt.current_period_start
      current_period_end := some evt.current_period_end
      cancel_at_period_end := evt.cancel_at_period_end
      updated_at := now }
  else r

/-- `handleSubscriptionUpdated` (`subscription.ts`): an unconditional SQL
`UPDATE` keyed by `stripe_subscription_id`; a storage error is caught and
logged, leaving the store unchanged. -/
def handleSubscriptionUpdated (dbFail : Bool) (evt : StripeSub) (now : Int)
    (store : Store) : Store :=
  if dbFail then store
  else { store with subscriptions := store.subscriptions.map (applySubUpdate evt now) }

/-- The row transformation of `handleSubscriptionCanceled`'s SQL `UPDATE`. -/
def applySubCancel (evt : StripeSub) (now : Int) (r : SubscriptionRow) :
    SubscriptionRow :=
  if sqlStrEq r.stripe_subscription_id (some evt.id) then
    { r with status := SubStatus.canceled, updated_at := now }
  else r

/-- `handleSubscriptionCanceled` (`subscription.ts`): sets
`status = 'canceled'` on every row matching the event's subscription id. -/
def handleSubscriptionCanceled (dbFail : Bool) (evt : StripeSub) (now : Int)
    (store : Store) : Store :=
  if dbFail then store
  else { store with subscriptions := store.subscriptions.map (applySubCancel evt now) }

/-- The row transformation of `handlePaymentFailed`'s SQL `UPDATE`: sets
`status = 'past_due'` on every row matching the invoice's subscription
reference, with no condition on the current status. -/
def applyPaymentFailed (subRef : Option String) (now : Int)
    (r : SubscriptionRow) : SubscriptionRow :=
  if sqlStrEq r.stripe_subscription_id subRef then
    { r with status := SubStatus.past_due, updated_at := now }
  else r

/-- `handlePaymentFailed` (`subscription.ts`): unconditional `UPDATE` to
`past_due`; a storage error is caught and logged. -/
def handlePaymentFailed (dbFail : Bool) (invoice : Invoice) (now : Int)
    (store : Store) : Store :=
  if dbFail then store
  else
    { store with
      subscriptions := store.subscriptions.map (applyPaymentFailed invoice.subscription now) }

/-- `handlePaymentSucceeded` (`subscription.ts`): `SELECT id FROM
subscriptions WHERE stripe_subscription_id = ? LIMIT 1`; if no row is
found, log and return (the store is unchanged); otherwise `INSERT` a
`payment_history` row (the table has no uniqueness constraint on
`stripe_payment_intent_id`, so the insert always appends). A storage
error is caught and logged. -/
def handlePaymentSucceeded (dbFail : Bool) (invoice : Invoice) (now : Int)
    (store : Store) : Store :=
  if dbFail then store
  else
    match store.subscriptions.find?
        (fun r => sqlStrEq r.stripe_subscription_id invoice.subscription) with
    | none => store
    | some owner =>
      { store with
        payment_history := store.payment_history ++
          [{ id := store.next_pay_id
             subscription_id := owner.id
             stripe_payment_intent_id := invoice.payment_intent
             amount := jsAmount invoice.amount_paid
             currency := jsCurrency invoice.currency
             status := PayStatus.succeeded
             payment_method := jsPaymentMethod invoice.payment_method_types
             paid_at := jsPaidAt invoice.status_transitions_paid_at now
             created_at := now }]
        next_pay_id := store.next_pay_id + 1 }

/-- A normalized provider event as dispatched by `handleStripeWebhook`'s
`switch` on `event.type`. For `checkout.session.completed` the handler
also retrieves the subscription object from the provider, so that object
travels with the case. -/
inductive StripeObject
  | checkoutCompleted (session : CheckoutSession) (retrieved : StripeSub)
  | subscriptionUpdated (sub : StripeSub)
  | subscriptionDeleted (sub : StripeSub)
  | invoicePaymentSucceeded (inv : Invoice)
  | invoicePaymentFailed (inv : Invoice)
  | unhandled (eventType : String)
deriving Repr, DecidableEq

/-- The value `handleStripeWebhook` returns on success: `{ received: true }`. -/
structure WebhookResult where
  received : Bool
deriving Repr, DecidableEq

/-- The error `handleStripeWebhook` throws:
`stripe.webhooks.constructEvent` failing signature verification. -/
inductive WebhookErr
  | signature (msg : String)
deriving Repr, DecidableEq

/-- `handleStripeWebhook` (`subscription.ts`): signature verification is
performed by `stripe.webhooks.constructEvent`; its outcome (a parsed
event, or the verification error message) is the `verified` input. On
failure the handler re-throws before any state change; on success it
dispatches to the per-event handler and returns `{ received: true }`,
whatever the handler did. -/
def handleStripeWebhook (verified : Except String StripeObject) (dbFail : Bool)
    (now : Int) (store : Store) : Store × Except WebhookErr WebhookResult :=
  match verified with
  | .error msg => (store, .error (.signature msg))
  | .ok obj =>
    let store' :=
      match obj with
      | .checkoutCompleted s r => handleCheckoutCompleted dbFail s r now store
      | .subscriptionUpdated s => handleSubscriptionUpdated dbFail s now store
      | .subscriptionDeleted s => handleSubscriptionCanceled dbFail s now store
      | .invoicePaymentSucceeded i => handlePaymentSucceeded dbFail i now store
      | .invoicePaymentFailed i => handlePaymentFailed dbFail i now store
      | .unhandled _ => store
    (store', .ok { received := true })

/-- A storage-layer failure: the database handle throwing from `db.query`. -/
inductive DbErr
  | unavailable
  | other (msg : String)
deriving Repr, DecidableEq

/-- The `SELECT ... WHERE s.user_id = ? ORDER BY s.created_at DESC LIMIT 1`
of the middleware: the user's row with the greatest `created_at` (the
first such row when several tie, the tie order being unspecified in SQL). -/
def mostRecentSubscription (store : Store) (userId : String) :
    Option SubscriptionRow :=
  (store.subscriptions.filter (fun r => r.user_id == userId)).foldl
    (fun acc r =>
      match acc with
      | none => some r
      | some b => if b.created_at < r.created_at then some r else some b)
    none

/-- `hasActiveSubscription` (`middleware/subscription.ts`): query the most
recent subscription of the user; no row gives `false`; otherwise the
result is `['active','trialing'].includes(status) && current_period_end
&& new Date(current_period_end) > new Date()` — a `NULL` period end is
falsy. The whole body sits in a `try/catch` returning `false` on a
storage error (`dbq = .error`), so the function never throws; it is a
total function of the store and the clock, never a stored flag. -/
def hasActiveSubscription (dbq : Except DbErr Store) (userId : String)
    (now : Int) : Bool :=
  match dbq with
  | .error _ => false
  | .ok store =>
    match mostRecentSubscription store userId with
    | none => false
    | some sub =>
      let isActiveStatus :=
        sub.status == SubStatus.active || sub.status == SubStatus.trialing
      let isNotExpired :=
        match sub.current_period_end with
        | none => false
        | some endTime => now < endTime
      isActiveStatus && isNotExpired

/-- The `plan` sub-object assembled by `getSubscriptionStatus` from the
`LEFT JOIN subscription_plans`: all fields `NULL` when the join misses. -/
structure PlanView where
  name : Option String
  description : Option String
  priceMonthly : Option Rat
  priceYearly : Option Rat
deriving Repr, DecidableEq

/-- The object returned by `getSubscriptionStatus`. In the no-record and
error branches the source returns an object carrying only `status` and
`hasAccess`; the absent keys are `none` / `false` here. -/
structure StatusView where
  status : String
  hasAccess : Bool
  plan : Option PlanView
  currentPeriodStart : Option Int
  currentPeriodEnd : Option Int
  cancelAtPeriodEnd : Bool
  trialEnd : Option Int
  stripeCustomerId : Option String
  stripeSubscriptionId : Option String
deriving Repr, DecidableEq

/-- `getSubscriptionStatus` (`middleware/subscription.ts`): most recent
subscription row of the user, left-joined with its plan; `status = 'none'`
without a row, `status = 'error'` when the query throws; `hasAccess` is
recomputed by `hasActiveSubscription` on every call. -/
def getSubscriptionStatus (dbq : Except DbErr Store) (userId : String)
    (now : Int) : StatusView :=
  match dbq with
  | .error _ =>
    { status := "error", hasAccess := false, plan := none
      currentPeriodStart := none, currentPeriodEnd := none
      cancelAtPeriodEnd := false, trialEnd := none
      stripeCustomerId := none, stripeSubscriptionId := none }
  | .ok store =>
    match mostRecentSubscription store userId with
    | none =>
      { status := "none", hasAccess := false, plan := none
        currentPeriodStart := none, currentPeriodEnd := none
        cancelAtPeriodEnd := false, trialEnd := none
        stripeCustomerId := none, stripeSubscriptionId := none }
    | some sub =>
      let plan := store.plans.find? (fun p => p.id == sub.plan_id)
      { status := sub.status.str
        hasAccess := hasActiveSubscription dbq userId now
        plan := some
          { name := plan.map Plan.name
            description := plan.bind Plan.description
            priceMonthly := plan.map Plan.price_monthly
            priceYearly := plan.bind Plan.price_yearly }
        currentPeriodStart := sub.current_period_start
        currentPeriodEnd := sub.current_period_end
        cancelAtPeriodEnd := sub.cancel_at_period_end
        trialEnd := sub.trial_end
        stripeCustomerId := sub.stripe_customer_id
        stripeSubscriptionId := sub.stripe_subscription_id }

/-- The stable error codes of the command surface's `TRPCError`s. -/
inductive TrpcCode
  | UNAUTHORIZED
  | FORBIDDEN
  | NOT_FOUND
  | INTERNAL_SERVER_ERROR
deriving Repr, DecidableEq

/-- A `TRPCError` as thrown by the command surface. -/
structure TrpcError where
  code : TrpcCode
  message : String
deriving Repr, DecidableEq

/-- `requireAuth` (`middleware/subscription.ts`): `if (!userId) throw
UNAUTHORIZED` — `null`, `undefined` and `""` are falsy. -/
def requireAuth (userId : Option String) : Except TrpcError String :=
  match userId with
  | none => .error { code := .UNAUTHORIZED, message := "Voce precisa estar logado" }
  | some u =>
    if u == "" then .error { code := .UNAUTHORIZED, message := "Voce precisa estar logado" }
    else .ok u

/-- `cancelSubscription` (`subscription.ts`): the provider-side
`cancel_at_period_end = true` write (an external call, modelled as
succeeding) followed by the local mirror `UPDATE`; a storage error is
re-thrown as `INTERNAL_SERVER_ERROR`. -/
def cancelSubscription (stripeSubscriptionId : String) (now : Int)
    (dbq : Except DbErr Store) : Except TrpcError (Store × Bool) :=
  match dbq with
  | .error _ => .error { code := .INTERNAL_SERVER_ERROR, message := "Erro ao cancelar assinatura" }
  | .ok store =>
    .ok
      ({ store with
         subscriptions := store.subscriptions.map (fun r =>
           if sqlStrEq r.stripe_subscription_id (some stripeSubscriptionId) then
             { r with cancel_at_period_end := true, updated_at := now }
           else r) },
       true)

/-- `reactivateSubscription` (`subscription.ts`): the provider-side
`cancel_at_period_end = false` write (modelled as succeeding) followed by
the local mirror `UPDATE`. -/
def reactivateSubscription (stripeSubscriptionId : String) (now : Int)
    (dbq : Except DbErr Store) : Except TrpcError (Store × Bool) :=
  match dbq with
  | .error _ => .error { code := .INTERNAL_SERVER_ERROR, message := "Erro ao reativar assinatura" }
  | .ok store =>
    .ok
      ({ store with
         subscriptions := store.subscriptions.map (fun r =>
           if sqlStrEq r.stripe_subscription_id (some stripeSubscriptionId) then
             { r with cancel_at_period_end := false, updated_at := now }
           else r) },
       true)

/-- `subscriptionRouter.createPortal` (`subscription.ts`): `requireAuth`,
then `getSubscriptionStatus`; `if (!status.stripeCustomerId) throw
NOT_FOUND`; otherwise `createPortalSession` (an external provider call,
modelled as returning `portalUrl`). -/
def createPortal (dbq : Except DbErr Store) (userId : Option String)
    (now : Int) (portalUrl : String) : Except TrpcError String :=
  match requireAuth userId with
  | .error e => .error e
  | .ok uid =>
    let status := getSubscriptionStatus dbq uid now
    if jsTruthy status.stripeCustomerId then .ok portalUrl
    else .error { code := .NOT_FOUND, message := "Assinatura nao encontrada" }

/-- `subscriptionRouter.cancel` (`subscription.ts`): `requireAuth`, then
`getSubscriptionStatus`; `if (!status.stripeSubscriptionId) throw
NOT_FOUND`; otherwise `cancelSubscription`. On success the result is the
updated store and `{ success: true }`. -/
def cancelCmd (dbq : Except DbErr Store) (userId : Option String)
    (now : Int) : Except TrpcError (Store × Bool) :=
  match requireAuth userId with
  | .error e => .error e
  | .ok uid =>
    let status := getSubscriptionStatus dbq uid now
    match status.stripeSubscriptionId with
    | none => .error { code := .NOT_FOUND, message := "Assinatura nao encontrada" }
    | some sid =>
      if sid == "" then .error { code := .NOT_FOUND, message := "Assinatura nao encontrada" }
      else cancelSubscription sid now dbq

/-- `subscriptionRouter.reactivate` (`subscription.ts`): same dispatch as
`cancelCmd`, calling `reactivateSubscription`. -/
def reactivateCmd (dbq : Except DbErr Store) (userId : Option String)
    (now : Int) : Except TrpcError (Store × Bool) :=
  match requireAuth userId with
  | .error e => .error e
  | .ok uid =>
    let status := getSubscriptionStatus dbq uid now
    match status.stripeSubscriptionId with
    | none => .error { code := .NOT_FOUND, message := "Assinatura nao encontrada" }
    | some sid =>
      if sid == "" then .error { code := .NOT_FOUND, message := "Assinatura nao encontrada" }
      else reactivateSubscription sid now dbq

/-- Number of `subscriptions` rows carrying a given
`stripe_subscription_id`. -/
def subCountByRef (store : Store) (ref : Option String) : Nat :=
  (store.subscriptions.filter
    (fun r => sqlStrEq r.stripe_subscription_id ref)).length

/-- Number of `payment_history` rows carrying a given
`stripe_payment_intent_id`. -/
def paymentCountByRef (store : Store) (ref : Option String) : Nat :=
  (store.payment_history.filter
    (fun p => sqlStrEq p.stripe_payment_intent_id ref)).length

/-! Concrete fixtures used to evaluate the definitions on small inputs. -/

/-- A subscription row for user `"42"` on provider reference `"S1"`. -/
def exRow (st : SubStatus) (cpe : Option Int) : SubscriptionRow :=
  { id := 1
    user_id := "42"
    plan_id := 1
    stripe_customer_id := some "cus_1"
    stripe_subscription_id := some "S1"
    status := st
    current_period_start := some 10
    current_period_end := cpe
    cancel_at_period_end := false
    trial_end := none
    created_at := 10
    updated_at := 10 }

/-- A store holding exactly one subscription row (`exRow`) and no
payments. -/
def exStore (st : SubStatus) (cpe : Option Int) : Store :=
  { subscriptions := [exRow st cpe]
    payment_history := []
    plans := []
    next_sub_id := 2
    next_pay_id := 1 }

/-- A `customer.subscription.updated` snapshot for `"S1"` reporting
status `active`. -/
def exEvtActive : StripeSub :=
  { id := "S1"
    status := SubStatus.active
    current_period_start := 30
    current_period_end := 60
    trial_end := none
    cancel_at_period_end := false }

/-- An invoice event for subscription `"S1"` with payment reference
`"P1"`. -/
def exInv : Invoice :=
  { id := "in_1"
    subscription := some "S1"
    payment_intent := some "P1"
    amount_paid := some 1990
    currency := some "brl"
    payment_method_types := ["card"]
    status_transitions_paid_at := some 40 }

/-- C1, counterexample: a record in the terminal status `canceled` is NOT
left `canceled` — the SQL `UPDATE` of `handleSubscriptionUpdated` has no
condition on the current status, so a `SubscriptionUpdated` snapshot
reporting `active` overwrites it, and a `PaymentFailed` event sets it to
`past_due`. -/
theorem c1_counterexample :
    ((handleSubscriptionUpdated false exEvtActive 100
        (exStore SubStatus.canceled (some 60))).subscriptions.map
      SubscriptionRow.status = [SubStatus.active]) ∧
    ((handlePaymentFailed false exInv 100
        (exStore SubStatus.canceled (some 60))).subscriptions.map
      SubscriptionRow.status = [SubStatus.past_due]) ∧
    SubStatus.active ≠ SubStatus.canceled := by
  refine ⟨by decide, by decide, by decide⟩

/-- C1 (amended): there is no terminal-state guard. For every record
matched by the event's `externalSubscriptionRef` — whatever its current
status, `canceled` included — `handleSubscriptionUpdated` overwrites its
status with the event's status, and `handlePaymentFailed` sets its status
to `past_due`. -/
theorem c1_amended (store : Store) (evt : StripeSub) (inv : Invoice)
    (now : Int) (i : Nat) (h : i < store.subscriptions.length)
    (hre : sqlStrEq (store.subscriptions.get ⟨i, h⟩).stripe_subscription_id
      (some evt.id) = true)
    (hri : sqlStrEq (store.subscriptions.get ⟨i, h⟩).stripe_subscription_id
      inv.subscription = true) :
    ∃ (h1 : i < (handleSubscriptionUpdated false evt now store).subscriptions.length)
      (h2 : i < (handlePaymentFailed false inv now store).subscriptions.length),
      ((handleSubscriptionUpdated false evt now store).subscriptions.get
        ⟨i, h1⟩).status = evt.status ∧
      ((handlePaymentFailed false inv now store).subscriptions.get
        ⟨i, h2⟩).status = SubStatus.past_due := by
  simp only [List.get_eq_getElem] at hre hri
  have h1 : i < (handleSubscriptionUpdated false evt now store).subscriptions.length := by
    simpa [handleSubscriptionUpdated] using h
  have h2 : i < (handlePaymentFailed false inv now store).subscriptions.length := by
    simpa [handlePaymentFailed] using h
  refine ⟨h1, h2, ?_, ?_⟩
  · simp only [List.get_eq_getElem, handleSubscriptionUpdated, if_neg Bool.false_ne_true,
      List.getElem_map, Bool.false_eq_true, if_false]
    simp [applySubUpdate, hre]
  · simp only [List.get_eq_getElem, handlePaymentFailed,
      List.getElem_map, Bool.false_eq_true, if_false]
    simp [applyPaymentFailed, hri]

/-- C1 (amended), witness at the concrete canceled store. -/
theorem c1_amended_witness :
    ∃ (h1 : 0 < (handleSubscriptionUpdated false exEvtActive 100
          (exStore SubStatus.canceled (some 60))).subscriptions.length)
      (h2 : 0 < (handlePaymentFailed false exInv 100
          (exStore SubStatus.canceled (some 60))).subscriptions.length),
      ((handleSubscriptionUpdated false exEvtActive 100
          (exStore SubStatus.canceled (some 60))).subscriptions.get
        ⟨0, h1⟩).status = exEvtActive.status ∧
      ((handlePaymentFailed false exInv 100
          (exStore SubStatus.canceled (some 60))).subscriptions.get
        ⟨0, h2⟩).status = SubStatus.past_due :=
  c1_amended (exStore SubStatus.canceled (some 60)) exEvtActive exInv 100 0
    (by decide) (by decide) (by decide)

/-- A completed checkout session for user `"42"` and subscription
`"S1"`. -/
def exSession : CheckoutSession :=
  { metadata_userId := some "42"
    subscription := some "S1"
    customer := some "cus_1" }

/-- The subscription object retrieved from the provider for `exSession`. -/
def exRetrieved : StripeSub :=
  { id := "S1"
    status := SubStatus.trialing
    current_period_start := 10
    current_period_end := 60
    trial_end := some 17
    cancel_at_period_end := false }

/-- An invoice event referencing an unknown subscription `"SX"`. -/
def exInvDangling : Invoice :=
  { exInv with subscription := some "SX" }

/-- C2, counterexample: a `CheckoutCompleted` for a reference that
already has a record is NOT a no-op — `handleCheckoutCompleted` runs an
unconditional `INSERT` and the table has no uniqueness constraint on
`stripe_subscription_id`, so a second record for `"S1"` is created and
the resulting state differs from the prior state. -/
theorem c2_counterexample :
    handleCheckoutCompleted false exSession exRetrieved 200
        (exStore SubStatus.active (some 60)) ≠
      exStore SubStatus.active (some 60) ∧
    subCountByRef
      (handleCheckoutCompleted false exSession exRetrieved 200
        (exStore SubStatus.active (some 60))) (some "S1") = 2 := by
  refine ⟨by decide, by decide⟩

/-- C2 (amended): `handleCheckoutCompleted` is not idempotent. Whenever
the session carries a truthy `userId` and subscription id, applying it
appends one new record for the event's `externalSubscriptionRef`,
regardless of whether a record for that reference already exists: the
count of records for that reference grows by one on every application. -/
theorem c2_amended (session : CheckoutSession) (retrieved : StripeSub)
    (now : Int) (store : Store)
    (hu : jsTruthy session.metadata_userId = true)
    (hs : jsTruthy session.subscription = true) :
    subCountByRef (handleCheckoutCompleted false session retrieved now store)
        session.subscription
      = subCountByRef store session.subscription + 1 ∧
    (handleCheckoutCompleted false session retrieved now store).subscriptions.length
      = store.subscriptions.length + 1 := by
  obtain ⟨s, hsub⟩ : ∃ s, session.subscription = some s := by
    cases hsub : session.subscription with
    | none => simp [jsTruthy, hsub] at hs
    | some s => exact ⟨s, rfl⟩
  unfold handleCheckoutCompleted
  simp only [hu, hs, Bool.not_true, Bool.or_self, Bool.false_eq_true, if_false]
  constructor
  · simp [subCountByRef, List.filter_append, hsub, sqlStrEq]
  · simp

/-- C2 (amended), witness: re-applying the checkout event to a store that
already holds the `"S1"` record adds a second `"S1"` record. -/
theorem c2_amended_witness :
    subCountByRef
        (handleCheckoutCompleted false exSession exRetrieved 200
          (exStore SubStatus.active (some 60))) exSession.subscription
      = subCountByRef (exStore SubStatus.active (some 60))
          exSession.subscription + 1 ∧
    (handleCheckoutCompleted false exSession exRetrieved 200
        (exStore SubStatus.active (some 60))).subscriptions.length
      = (exStore SubStatus.active (some 60)).subscriptions.length + 1 :=
  c2_amended exSession exRetrieved 200 (exStore SubStatus.active (some 60))
    (by decide) (by decide)

/-- C3, counterexample: two `PaymentSucceeded` deliveries sharing
`externalPaymentRef` `"P1"` leave TWO payment records with that
reference, not exactly one — the handler has no duplicate check and the
table's index on `stripe_payment_intent_id` is not unique. -/
theorem c3_counterexample :
    paymentCountByRef
      (handlePaymentSucceeded false exInv 300
        (handlePaymentSucceeded false exInv 300
          (exStore SubStatus.active (some 60)))) (some "P1") = 2 ∧
    (2 : Nat) ≠ 1 := by
  refine ⟨by decide, by decide⟩

/-- C3 (amended): whenever the owning subscription exists and the invoice
carries a payment reference, every application of
`handlePaymentSucceeded` appends a payment record unconditionally — the
count of payment records with that `externalPaymentRef` grows by one per
delivery, so duplicates accumulate instead of being skipped. -/
theorem c3_amended (inv : Invoice) (now : Int) (store : Store)
    (owner : SubscriptionRow) (p : String)
    (hfind : store.subscriptions.find?
      (fun r => sqlStrEq r.stripe_subscription_id inv.subscription) = some owner)
    (hp : inv.payment_intent = some p) :
    paymentCountByRef (handlePaymentSucceeded false inv now store)
        inv.payment_intent
      = paymentCountByRef store inv.payment_intent + 1 := by
  unfold handlePaymentSucceeded
  simp only [Bool.false_eq_true, if_false, hfind]
  simp [paymentCountByRef, List.filter_append, hp, sqlStrEq]

/-- C3 (amended), witness at the concrete store owning `"S1"`. -/
theorem c3_amended_witness :
    paymentCountByRef
        (handlePaymentSucceeded false exInv 300
          (exStore SubStatus.active (some 60))) exInv.payment_intent
      = paymentCountByRef (exStore SubStatus.active (some 60))
          exInv.payment_intent + 1 :=
  c3_amended exInv 300 (exStore SubStatus.active (some 60))
    (exRow SubStatus.active (some 60)) "P1" (by decide) (by decide)

/-- C4, counterexample: a `SubscriptionUpdated` delivery whose
persistence step fails with a storage error (`dbFail = true`) leaves the
store untouched but the webhook handler returns SUCCESS
(`{ received: true }`), not failure — the per-event handler catches the
storage error and only logs it, so the provider is never told to
redeliver. -/
theorem c4_counterexample :
    handleStripeWebhook
        (Except.ok (StripeObject.subscriptionUpdated exEvtActive)) true 400
        (exStore SubStatus.active (some 60))
      = (exStore SubStatus.active (some 60),
         Except.ok { received := true }) := rfl

/-- C4 (amended): when the persistence step of any normalized event fails
with a storage error, the prior record state is left untouched, but the
error is swallowed (caught and logged inside the handler) and
`handleStripeWebhook` still returns success (`{ received: true }`, a 2xx
to the provider), so the event is NOT redelivered; only signature
verification failures propagate as errors. -/
theorem c4_amended (evt : StripeObject) (now : Int) (store : Store) :
    handleStripeWebhook (Except.ok evt) true now store
      = (store, Except.ok { received := true }) := by
  cases evt <;>
    simp [handleStripeWebhook, handleCheckoutCompleted,
      handleSubscriptionUpdated, handleSubscriptionCanceled,
      handlePaymentSucceeded, handlePaymentFailed]

/-- C6: a webhook payload whose signature does not verify is rejected
with the authentication error re-thrown by `handleStripeWebhook`, and the
store is returned unchanged — no per-event handler runs. -/
theorem c6_signature_reject (msg : String) (dbFail : Bool) (now : Int)
    (store : Store) :
    handleStripeWebhook (Except.error msg) dbFail now store
      = (store, Except.error (WebhookErr.signature msg)) := rfl

/-- C7: a `PaymentSucceeded` whose `externalSubscriptionRef` matches no
subscription record creates no payment record and raises no error: the
lookup returns nothing, the handler returns with the store unchanged, and
the webhook acknowledges the event with `{ received: true }`. -/
theorem c7_dangling (inv : Invoice) (now : Int) (store : Store)
    (h : store.subscriptions.find?
      (fun r => sqlStrEq r.stripe_subscription_id inv.subscription) = none) :
    handlePaymentSucceeded false inv now store = store ∧
    handleStripeWebhook (Except.ok (StripeObject.invoicePaymentSucceeded inv))
        false now store
      = (store, Except.ok { received := true }) := by
  have h1 : handlePaymentSucceeded false inv now store = store := by
    unfold handlePaymentSucceeded
    simp [h]
  exact ⟨h1, by simp [handleStripeWebhook, h1]⟩

/-- C7, witness: an invoice for the unknown reference `"SX"` against the
store that only knows `"S1"`. -/
theorem c7_dangling_witness :
    handlePaymentSucceeded false exInvDangling 300
        (exStore SubStatus.active (some 60))
      = exStore SubStatus.active (some 60) ∧
    handleStripeWebhook
        (Except.ok (StripeObject.invoicePaymentSucceeded exInvDangling))
        false 300 (exStore SubStatus.active (some 60))
      = (exStore SubStatus.active (some 60),
         Except.ok { received := true }) :=
  c7_dangling exInvDangling 300 (exStore SubStatus.active (some 60))
    (by decide)

/-- C5: `hasActiveSubscription` is a pure function of the stored fields:
it returns `true` exactly when the user's most recent subscription record
exists, its status is `active` or `trialing`, and its
`current_period_end` is strictly later than now; a user with no record
gets `false`. The boolean is recomputed from the record on every call —
the definition reads no stored flag, only `status` and
`current_period_end`. -/
theorem c5_entitlement_pure (store : Store) (u : String) (now : Int) :
    (hasActiveSubscription (Except.ok store) u now = true ↔
      ∃ sub, mostRecentSubscription store u = some sub ∧
        (sub.status = SubStatus.active ∨ sub.status = SubStatus.trialing) ∧
        ∃ endTime, sub.current_period_end = some endTime ∧ now < endTime) ∧
    (mostRecentSubscription store u = none →
      hasActiveSubscription (Except.ok store) u now = false) := by
  constructor
  · unfold hasActiveSubscription
    cases heq : mostRecentSubscription store u with
    | none => simp [heq]
    | some sub =>
      cases hce : sub.current_period_end with
      | none => simp [heq, hce]
      | some endTime =>
        simp [heq, hce, Bool.and_eq_true, Bool.or_eq_true, beq_iff_eq,
          decide_eq_true_eq, and_assoc]
  · intro h
    unfold hasActiveSubscription
    simp [h]

/-- C5, witness: the concrete active store grants entitlement at time 50
(period end 60), matching the recomputed predicate. -/
theorem c5_entitlement_pure_witness :
    (hasActiveSubscription (Except.ok (exStore SubStatus.active (some 60)))
        "42" 50 = true ↔
      ∃ sub, mostRecentSubscription (exStore SubStatus.active (some 60)) "42"
          = some sub ∧
        (sub.status = SubStatus.active ∨ sub.status = SubStatus.trialing) ∧
        ∃ endTime, sub.current_period_end = some endTime ∧ (50 : Int) < endTime) ∧
    (mostRecentSubscription (exStore SubStatus.active (some 60)) "42" = none →
      hasActiveSubscription (Except.ok (exStore SubStatus.active (some 60)))
        "42" 50 = false) :=
  c5_entitlement_pure (exStore SubStatus.active (some 60)) "42" 50

/-- C8: for a record not in status `canceled` that matches the event's
`externalSubscriptionRef`, `handleSubscriptionUpdated` overwrites exactly
`status`, `current_period_start`, `current_period_end` and
`cancel_at_period_end` with the event's values (a whole-snapshot
overwrite, no merge), and leaves `user_id`, `plan_id`,
`stripe_customer_id`, `stripe_subscription_id` and `trial_end`
unchanged. -/
theorem c8_update_frame (store : Store) (evt : StripeSub) (now : Int)
    (i : Nat) (h : i < store.subscriptions.length)
    (hre : sqlStrEq (store.subscriptions.get ⟨i, h⟩).stripe_subscription_id
      (some evt.id) = true)
    (_hnc : (store.subscriptions.get ⟨i, h⟩).status ≠ SubStatus.canceled) :
    ∃ h2 : i < (handleSubscriptionUpdated false evt now store).subscriptions.length,
      ((handleSubscriptionUpdated false evt now store).subscriptions.get
          ⟨i, h2⟩).status = evt.status ∧
      ((handleSubscriptionUpdated false evt now store).subscriptions.get
          ⟨i, h2⟩).current_period_start = some evt.current_period_start ∧
      ((handleSubscriptionUpdated false evt now store).subscriptions.get
          ⟨i, h2⟩).current_period_end = some evt.current_period_end ∧
      ((handleSubscriptionUpdated false evt now store).subscriptions.get
          ⟨i, h2⟩).cancel_at_period_end = evt.cancel_at_period_end ∧
      ((handleSubscriptionUpdated false evt now store).subscriptions.get
          ⟨i, h2⟩).user_id = (store.subscriptions.get ⟨i, h⟩).user_id ∧
      ((handleSubscriptionUpdated false evt now store).subscriptions.get
          ⟨i, h2⟩).plan_id = (store.subscriptions.get ⟨i, h⟩).plan_id ∧
      ((handleSubscriptionUpdated false evt now store).subscriptions.get
          ⟨i, h2⟩).stripe_customer_id
        = (store.subscriptions.get ⟨i, h⟩).stripe_customer_id ∧
      ((handleSubscriptionUpdated false evt now store).subscriptions.get
          ⟨i, h2⟩).stripe_subscription_id
        = (store.subscriptions.get ⟨i, h⟩).stripe_subscription_id ∧
      ((handleSubscriptionUpdated false evt now store).subscriptions.get
          ⟨i, h2⟩).trial_end = (store.subscriptions.get ⟨i, h⟩).trial_end := by
  simp only [List.get_eq_getElem] at hre
  have h2 : i < (handleSubscriptionUpdated false evt now store).subscriptions.length := by
    simpa [handleSubscriptionUpdated] using h
  refine ⟨h2, ?_⟩
  simp only [List.get_eq_getElem, handleSubscriptionUpdated,
    Bool.false_eq_true, if_false, List.getElem_map]
  simp [applySubUpdate, hre]

/-- C8, witness at a concrete `active` record for `"S1"`. -/
theorem c8_update_frame_witness :
    ∃ h2 : 0 < (handleSubscriptionUpdated false exEvtActive 100
        (exStore SubStatus.active (some 60))).subscriptions.length,
      ((handleSubscriptionUpdated false exEvtActive 100
          (exStore SubStatus.active (some 60))).subscriptions.get
          ⟨0, h2⟩).status = exEvtActive.status ∧
      ((handleSubscriptionUpdated false exEvtActive 100
          (exStore SubStatus.active (some 60))).subscriptions.get
          ⟨0, h2⟩).current_period_start = some exEvtActive.current_period_start ∧
      ((handleSubscriptionUpdated false exEvtActive 100
          (exStore SubStatus.active (some 60))).subscriptions.get
          ⟨0, h2⟩).current_period_end = some exEvtActive.current_period_end ∧
      ((handleSubscriptionUpdated false exEvtActive 100
          (exStore SubStatus.active (some 60))).subscriptions.get
          ⟨0, h2⟩).cancel_at_period_end = exEvtActive.cancel_at_period_end ∧
      ((handleSubscriptionUpdated false exEvtActive 100
          (exStore SubStatus.active (some 60))).subscriptions.get
          ⟨0, h2⟩).user_id
        = ((exStore SubStatus.active (some 60)).subscriptions.get
            ⟨0, by decide⟩).user_id ∧
      ((handleSubscriptionUpdated false exEvtActive 100
          (exStore SubStatus.active (some 60))).subscriptions.get
          ⟨0, h2⟩).plan_id
        = ((exStore SubStatus.active (some 60)).subscriptions.get
            ⟨0, by decide⟩).plan_id ∧
      ((handleSubscriptionUpdated false exEvtActive 100
          (exStore SubStatus.active (some 60))).subscriptions.get
          ⟨0, h2⟩).stripe_customer_id
        = ((exStore SubStatus.active (some 60)).subscriptions.get
            ⟨0, by decide⟩).stripe_customer_id ∧
      ((handleSubscriptionUpdated false exEvtActive 100
          (exStore SubStatus.active (some 60))).subscriptions.get
          ⟨0, h2⟩).stripe_subscription_id
        = ((exStore SubStatus.active (some 60)).subscriptions.get
            ⟨0, by decide⟩).stripe_subscription_id ∧
      ((handleSubscriptionUpdated false exEvtActive 100
          (exStore SubStatus.active (some 60))).subscriptions.get
          ⟨0, h2⟩).trial_end
        = ((exStore SubStatus.active (some 60)).subscriptions.get
            ⟨0, by decide⟩).trial_end :=
  c8_update_frame (exStore SubStatus.active (some 60)) exEvtActive 100 0
    (by decide) (by decide) (by decide)

/-- C10: the entitlement query fails closed. It is a total function (the
embedding returns a `Bool` for every input, mirroring the `try/catch`
that never re-throws): when the store query fails it returns `false`
rather than propagating the error, and a record whose
`current_period_end` is `NULL` is falsy, also denying access. -/
theorem c10_fail_closed (e : DbErr) (u : String) (now : Int) (store : Store)
    (sub : SubscriptionRow)
    (h : mostRecentSubscription store u = some sub)
    (hn : sub.current_period_end = none) :
    hasActiveSubscription (Except.error e) u now = false ∧
    hasActiveSubscription (Except.ok store) u now = false := by
  refine ⟨rfl, ?_⟩
  unfold hasActiveSubscription
  simp [h, hn]

/-- C10, witness: a failing store and an `active` record with a `NULL`
period end both deny access. -/
theorem c10_fail_closed_witness :
    hasActiveSubscription (Except.error DbErr.unavailable) "42" 50 = false ∧
    hasActiveSubscription (Except.ok (exStore SubStatus.active none)) "42" 50
      = false :=
  c10_fail_closed DbErr.unavailable "42" 50 (exStore SubStatus.active none)
    (exRow SubStatus.active none) (by decide) (by decide)

/-- C9: command-surface NOT_FOUND behaviour for an authenticated user.
`createPortal` fails with the typed `NOT_FOUND` error exactly when the
user's record carries no provider customer reference (a falsy
`stripeCustomerId`), and returns the portal URL otherwise; `cancel` and
`reactivate` fail with `NOT_FOUND` exactly when no provider subscription
reference exists, and return `{ success: true }` with the mirrored store
otherwise. -/
theorem c9_command_not_found (store : Store) (uid : String) (now : Int)
    (url : String) (hu : uid ≠ "") :
    ((jsTruthy (getSubscriptionStatus (Except.ok store) uid now).stripeCustomerId
        = false →
      createPortal (Except.ok store) (some uid) now url
        = Except.error { code := TrpcCode.NOT_FOUND,
                         message := "Assinatura nao encontrada" }) ∧
     (jsTruthy (getSubscriptionStatus (Except.ok store) uid now).stripeCustomerId
        = true →
      createPortal (Except.ok store) (some uid) now url = Except.ok url)) ∧
    ((jsTruthy (getSubscriptionStatus (Except.ok store) uid now).stripeSubscriptionId
        = false →
      cancelCmd (Except.ok store) (some uid) now
        = Except.error { code := TrpcCode.NOT_FOUND,
                         message := "Assinatura nao encontrada" } ∧
      reactivateCmd (Except.ok store) (some uid) now
        = Except.error { code := TrpcCode.NOT_FOUND,
                         message := "Assinatura nao encontrada" }) ∧
     (jsTruthy (getSubscriptionStatus (Except.ok store) uid now).stripeSubscriptionId
        = true →
      (∃ store1, cancelCmd (Except.ok store) (some uid) now
        = Except.ok (store1, true)) ∧
      (∃ store2, reactivateCmd (Except.ok store) (some uid) now
        = Except.ok (store2, true)))) := by
  have hne : (uid == "") = false := beq_eq_false_iff_ne.mpr hu
  constructor
  · constructor
    · intro hfalse
      unfold createPortal requireAuth
      simp [hne, hfalse]
    · intro htrue
      unfold createPortal requireAuth
      simp [hne, htrue]
  · constructor
    · intro hfalse
      unfold cancelCmd reactivateCmd requireAuth
      cases hsid : (getSubscriptionStatus (Except.ok store) uid now).stripeSubscriptionId with
      | none => simp [hne, hsid]
      | some sid =>
        rw [hsid] at hfalse
        have hempty : (sid == "") = true := by
          simpa [jsTruthy] using hfalse
        simp [hne, hsid, hempty]
    · intro htrue
      unfold cancelCmd reactivateCmd requireAuth cancelSubscription
        reactivateSubscription
      cases hsid : (getSubscriptionStatus (Except.ok store) uid now).stripeSubscriptionId with
      | none =>
        rw [hsid] at htrue
        simp [jsTruthy] at htrue
      | some sid =>
        rw [hsid] at htrue
        have hsne : (sid == "") = false := by
          simpa [jsTruthy] using htrue
        constructor
        · simp [hne, hsid, hsne]
        · simp [hne, hsid, hsne]

/-- C9, witness: against the store holding the `"S1"` record with
customer `"cus_1"`, both references are present, so `createPortal`
returns the URL and `cancel`/`reactivate` return success. -/
theorem c9_command_not_found_witness :
    ((jsTruthy (getSubscriptionStatus
          (Except.ok (exStore SubStatus.active (some 60))) "42" 50).stripeCustomerId
        = false →
      createPortal (Except.ok (exStore SubStatus.active (some 60)))
          (some "42") 50 "https://portal"
        = Except.error { code := TrpcCode.NOT_FOUND,
                         message := "Assinatura nao encontrada" }) ∧
     (jsTruthy (getSubscriptionStatus
          (Except.ok (exStore SubStatus.active (some 60))) "42" 50).stripeCustomerId
        = true →
      createPortal (Except.ok (exStore SubStatus.active (some 60)))
          (some "42") 50 "https://portal" = Except.ok "https://portal")) ∧
    ((jsTruthy (getSubscriptionStatus
          (Except.ok (exStore SubStatus.active (some 60))) "42" 50).stripeSubscriptionId
        = false →
      cancelCmd (Except.ok (exStore SubStatus.active (some 60))) (some "42") 50
        = Except.error { code := TrpcCode.NOT_FOUND,
                         message := "Assinatura nao encontrada" } ∧
      reactivateCmd (Except.ok (exStore SubStatus.active (some 60))) (some "42") 50
        = Except.error { code := TrpcCode.NOT_FOUND,
                         message := "Assinatura nao encontrada" }) ∧
     (jsTruthy (getSubscriptionStatus
          (Except.ok (exStore SubStatus.active (some 60))) "42" 50).stripeSubscriptionId
        = true →
      (∃ store1, cancelCmd (Except.ok (exStore SubStatus.active (some 60)))
          (some "42") 50 = Except.ok (store1, true)) ∧
      (∃ store2, reactivateCmd (Except.ok (exStore SubStatus.active (some 60)))
          (some "42") 50 = Except.ok (store2, true)))) :=
  c9_command_not_found (exStore SubStatus.active (some 60)) "42" 50
    "https://portal" (by decide)

end ValeOVinho
